import Mathlib

/-!
Verification development for the repository `AIAgent` (source: `src/agent.py`).

The file shallowly embeds the two traced pipeline entry points
`research_and_write` and `quick_research` from `src/agent.py`, together with
the rule-based tool router described in the specification (whose script is
not present under `src/`, so it is modelled from the spec).

Modelling conventions:
* Python exceptions are modelled with `Except String`: `Except.error m` is a
  raised exception whose `str()` is `m`.
* The external crew execution (`crew.kickoff()`) is an opaque parameter
  `work : Except String α`; `str(result)` is an opaque parameter
  `strFn : α → String`.
* The Langfuse client is modelled by a `TraceOracle` saying which tracing
  operations succeed and which raise.  The observable effect of a run on the
  tracing backend is a list of `SpanRecord`s, in creation order.
* `time.time()` values are modelled by two integer timestamps `startT` and
  `endT`; every `time.time() - start_time` in the source computes the same
  elapsed duration `endT - startT`.
-/

/-- A JSON-like value stored in a span payload. -/
inductive JVal where
  | s : String → JVal
  | n : Nat → JVal
  | i : Int → JVal
deriving Repr, DecidableEq

/-- A span payload: an ordered key/value mapping, as built by the Python
dict literals in `src/agent.py`. -/
abbrev Payload := List (String × JVal)

/-- Whether a payload has an entry for key `k`. -/
def Payload.hasKey (p : Payload) (k : String) : Bool :=
  p.any (fun kv => kv.1 == k)

/-- The value stored under key `k`, if any. -/
def Payload.get (p : Payload) (k : String) : Option JVal :=
  (p.find? (fun kv => kv.1 == k)).map (fun kv => kv.2)

/-- The record of one span as observed by the tracing backend: its name and
input at creation, the list of `(output, metadata)` pairs passed to
`span.update`, and whether the span was closed (the `with` block exited). -/
structure SpanRecord where
  name : String
  input : Payload
  updates : List (Payload × Payload)
  closed : Bool
deriving Repr, DecidableEq

instance : Inhabited SpanRecord := ⟨⟨"", [], [], false⟩⟩

/-- Which tracing-backend operations succeed during one invocation.
`beginOk`, `updateOk`, `flushOk` govern the primary span's creation, its
`span.update`, and the `langfuse.flush()` after it; the `err*` fields govern
the same three operations for the error span created in the `except` handler. -/
structure TraceOracle where
  beginOk : Bool
  updateOk : Bool
  flushOk : Bool
  errBeginOk : Bool
  errUpdateOk : Bool
  errFlushOk : Bool
deriving Repr, DecidableEq

/-- A fully functioning tracing backend. -/
def TraceOracle.allOk : TraceOracle := ⟨true, true, true, true, true, true⟩

/-- The message of an exception raised by the tracing backend. -/
def tracingErrorMsg : String := "TracingBackendError"

/-- `input_data` built by `research_and_write` (src/agent.py lines 80-84). -/
def rwInput (topic contentType ts : String) : Payload :=
  [("topic", JVal.s topic), ("content_type", JVal.s contentType),
   ("timestamp", JVal.s ts)]

/-- The success-path `output` of `research_and_write` (lines 136-140). -/
def rwSuccessOutput (resultStr : String) : Payload :=
  [("content", JVal.s (resultStr.take 800)),
   ("length", JVal.n resultStr.length),
   ("status", JVal.s "success")]

/-- The success-path `metadata` of `research_and_write` (lines 141-145). -/
def rwSuccessMeta (topic contentType : String) (duration : Int) : Payload :=
  [("topic", JVal.s topic), ("content_type", JVal.s contentType),
   ("execution_time_seconds", JVal.i duration)]

/-- The error-path `output` of `research_and_write` (line 171). -/
def rwErrorOutput (msg : String) : Payload :=
  [("error", JVal.s msg), ("status", JVal.s "failed")]

/-- The error-path `metadata` of `research_and_write` (lines 172-175). -/
def rwErrorMeta (topic : String) (duration : Int) : Payload :=
  [("topic", JVal.s topic), ("execution_time_seconds", JVal.i duration)]

/-- The error-span name `f"error_{topic[:20]}"` (line 167). -/
def rwErrorSpanName (topic : String) : String := "error_" ++ topic.take 20

/-- The spans produced by the `try: ... except: pass` block that logs an
error span inside the `except Exception` handler (lines 163-179 and 254-267).
Any tracing failure inside the block is swallowed; the span close performed
by the `with` exit is modelled as always succeeding. -/
def errorSpanAttempt (o : TraceOracle) (name : String)
    (input outP metaP : Payload) : List SpanRecord :=
  if o.errBeginOk then
    if o.errUpdateOk then
      [{ name := name, input := input, updates := [(outP, metaP)],
         closed := true }]
    else
      [{ name := name, input := input, updates := [], closed := true }]
  else []

/-- Shallow embedding of `research_and_write` (src/agent.py lines 70-180).
Returns the primary outcome observed by the caller and the spans recorded
by the tracing backend, in creation order. -/
def research_and_write {α : Type} (enabled : Bool) (o : TraceOracle)
    (work : Except String α) (strFn : α → String)
    (topic contentType ts : String) (startT endT : Int) :
    Except String α × List SpanRecord :=
  let input := rwInput topic contentType ts
  let duration := endT - startT
  let errSpans := fun (msg : String) =>
    errorSpanAttempt o (rwErrorSpanName topic) input
      (rwErrorOutput msg) (rwErrorMeta topic duration)
  if enabled then
    if o.beginOk then
      match work with
      | Except.error m =>
        -- `crew.kickoff()` raises inside the `with` block: the span is
        -- closed by the context manager without any update, then the
        -- handler logs a second, error span and re-raises.
        (Except.error m,
          { name := "research_and_write", input := input, updates := [],
            closed := true } :: errSpans m)
      | Except.ok r =>
        if o.updateOk then
          let mainSpan : SpanRecord :=
            { name := "research_and_write", input := input,
              updates := [(rwSuccessOutput (strFn r),
                           rwSuccessMeta topic contentType duration)],
              closed := true }
          if o.flushOk then
            (Except.ok r, [mainSpan])
          else
            -- `langfuse.flush()` raises: caught by the generic handler,
            -- which logs an error span and re-raises the tracing failure.
            (Except.error tracingErrorMsg,
              mainSpan :: errSpans tracingErrorMsg)
        else
          -- `span.update` raises: the span closes un-updated and the
          -- tracing failure is re-raised after the error-span attempt.
          (Except.error tracingErrorMsg,
            { name := "research_and_write", input := input, updates := [],
              closed := true } :: errSpans tracingErrorMsg)
    else
      -- span creation itself raises, before `crew.kickoff()` ever runs
      (Except.error tracingErrorMsg, errSpans tracingErrorMsg)
  else
    (work, [])

/-- `input_data` built by `quick_research` (src/agent.py lines 192-195). -/
def qrInput (question ts : String) : Payload :=
  [("question", JVal.s question), ("timestamp", JVal.s ts)]

/-- The success-path `output` of `quick_research` (lines 231-234): note the
key is `answer` and there is no `status` field. -/
def qrSuccessOutput (resultStr : String) : Payload :=
  [("answer", JVal.s (resultStr.take 800)),
   ("length", JVal.n resultStr.length)]

/-- The success-path `metadata` of `quick_research` (lines 235-238). -/
def qrSuccessMeta (question : String) (duration : Int) : Payload :=
  [("question", JVal.s question), ("execution_time_seconds", JVal.i duration)]

/-- The error-path `output` of `quick_research` (line 262): only `error`,
no `status` field. -/
def qrErrorOutput (msg : String) : Payload := [("error", JVal.s msg)]

/-- The error-path `metadata` of `quick_research` (line 263): only the
duration, no question context. -/
def qrErrorMeta (duration : Int) : Payload :=
  [("execution_time_seconds", JVal.i duration)]

/-- Shallow embedding of `quick_research` (src/agent.py lines 183-268). -/
def quick_research {α : Type} (enabled : Bool) (o : TraceOracle)
    (work : Except String α) (strFn : α → String)
    (question ts : String) (startT endT : Int) :
    Except String α × List SpanRecord :=
  let input := qrInput question ts
  let duration := endT - startT
  let errSpans := fun (msg : String) =>
    errorSpanAttempt o "error_research" input
      (qrErrorOutput msg) (qrErrorMeta duration)
  if enabled then
    if o.beginOk then
      match work with
      | Except.error m =>
        (Except.error m,
          { name := "quick_research", input := input, updates := [],
            closed := true } :: errSpans m)
      | Except.ok r =>
        if o.updateOk then
          let mainSpan : SpanRecord :=
            { name := "quick_research", input := input,
              updates := [(qrSuccessOutput (strFn r),
                           qrSuccessMeta question duration)],
              closed := true }
          if o.flushOk then
            (Except.ok r, [mainSpan])
          else
            (Except.error tracingErrorMsg,
              mainSpan :: errSpans tracingErrorMsg)
        else
          (Except.error tracingErrorMsg,
            { name := "quick_research", input := input, updates := [],
              closed := true } :: errSpans tracingErrorMsg)
    else
      (Except.error tracingErrorMsg, errSpans tracingErrorMsg)
  else
    (work, [])

/-- A span list with exactly one span, updated exactly once and closed. -/
def spansSuccessShape (spans : List SpanRecord) : Bool :=
  match spans with
  | [sp] => sp.updates.length == 1 && sp.closed
  | _ => false

/-- The shape actually produced on the failure path: two spans, the first
closed without any update, the second updated exactly once and closed. -/
def spansFailureShape (spans : List SpanRecord) : Bool :=
  match spans with
  | [sp1, sp2] =>
    sp1.updates.length == 0 && sp1.closed &&
    (sp2.updates.length == 1 && sp2.closed)
  | _ => false

/-- The `status` value of the first update of the first span, if any. -/
def spanStatusVal (spans : List SpanRecord) : Option JVal :=
  Payload.get ((spans.getD 0 default).updates.getD 0 ([], [])).1 "status"

/-- The `execution_time_seconds` value of the first update of the first
span, if any. -/
def spanDurationVal (spans : List SpanRecord) : Option JVal :=
  Payload.get ((spans.getD 0 default).updates.getD 0 ([], [])).2
    "execution_time_seconds"

/-!
## Rule-based tool router

The spec (§2, §4.2, §4.3) describes a second script — a keyword-based tool
router with three tools — that is not present under `src/`.  The router and
its tools are therefore modelled from the spec's words.
-/

/-- Modelled from the spec: the arithmetic characters of selection rule 1,
`+ - * / ( )`. -/
def isArithChar (c : Char) : Bool :=
  ['+', '-', '*', '/', '(', ')'].contains c

/-- Whether the question contains an arithmetic character or a digit. -/
def hasArithOrDigit (s : String) : Bool :=
  s.data.any (fun c => isArithChar c || c.isDigit)

/-- Whether `pat` occurs as a contiguous sublist of the second argument. -/
def containsSubList (pat : List Char) : List Char → Bool
  | [] => pat.isEmpty
  | c :: rest => pat.isPrefixOf (c :: rest) || containsSubList pat rest

/-- Case-insensitive substring test on strings. -/
def containsCI (s pat : String) : Bool :=
  containsSubList (pat.data.map Char.toLower) (s.data.map Char.toLower)

/-- Modelled from the spec (§4.2, missing router script): `select_tool`,
an ordered rule list evaluated first-match-wins:
arithmetic character or digit → calculator; "joke" (case-insensitive) →
random_joke; "word count" / "how many words" (case-insensitive) →
word_count; otherwise no tool. -/
def select_tool (q : String) : Option String :=
  if hasArithOrDigit q then some "calculator"
  else if containsCI q "joke" then some "random_joke"
  else if containsCI q "word count" || containsCI q "how many words" then
    some "word_count"
  else none

/-- Character rendering of a decimal digit `d < 10`. -/
def digitChar (d : Nat) : Char := Char.ofNat (48 + d)

/-- Fuelled decimal rendering of a natural number. -/
def renderNatCore : Nat → Nat → List Char
  | 0, _ => []
  | fuel + 1, n =>
    if n < 10 then [digitChar n]
    else renderNatCore fuel (n / 10) ++ [digitChar (n % 10)]

/-- Decimal rendering of a natural number. -/
def renderNat (n : Nat) : List Char := renderNatCore (n + 1) n

/-- Decimal rendering of an integer. -/
def renderInt (v : Int) : List Char :=
  if v < 0 then '-' :: renderNat v.natAbs else renderNat v.natAbs

/-- The characters a calculator expression may be drawn from (spec §4.3):
digits, `+ - * / ( ) .` and whitespace. -/
def allowedCalcChar (c : Char) : Bool :=
  c.isDigit || isArithChar c || c == '.' || c.isWhitespace

/-- Longest (first-longest) contiguous run of characters satisfying `p`;
`cur` is the current run (reversed order is not used: kept in order),
`best` the best run seen so far. -/
def longestRunAux (p : Char → Bool) : List Char → List Char → List Char →
    List Char
  | [], cur, best => if best.length ≥ cur.length then best else cur
  | c :: rest, cur, best =>
    if p c then longestRunAux p rest (cur ++ [c]) best
    else longestRunAux p rest []
      (if best.length ≥ cur.length then best else cur)

/-- Longest contiguous run of characters satisfying `p`. -/
def longestRun (p : Char → Bool) (l : List Char) : List Char :=
  longestRunAux p l [] []

/-- Tokens of the arithmetic expression grammar (spec §4.3, §9). -/
inductive Tok where
  | num : Nat → Tok
  | plus | minus | times | div | lpar | rpar
deriving Repr, DecidableEq

/-- The natural number denoted by a list of decimal digit characters. -/
def digitsToNat (ds : List Char) : Nat :=
  ds.foldl (fun a c => a * 10 + (c.toNat - 48)) 0

/-- Fuelled tokenizer for arithmetic expressions.  Numbers are modelled as
integer literals; a character outside the grammar (including `.`, i.e.
decimal points are not modelled) makes tokenization fail, which the
calculator reports as an evaluation error. -/
def tokenizeAux : Nat → List Char → Option (List Tok)
  | 0, _ => none
  | _, [] => some []
  | fuel + 1, c :: rest =>
    if c.isWhitespace then tokenizeAux fuel rest
    else if c.isDigit then
      let ds := List.takeWhile Char.isDigit (c :: rest)
      let rest2 := List.dropWhile Char.isDigit (c :: rest)
      match tokenizeAux fuel rest2 with
      | some ts => some (Tok.num (digitsToNat ds) :: ts)
      | none => none
    else
      let tok :=
        if c == '+' then some Tok.plus
        else if c == '-' then some Tok.minus
        else if c == '*' then some Tok.times
        else if c == '/' then some Tok.div
        else if c == '(' then some Tok.lpar
        else if c == ')' then some Tok.rpar
        else none
      match tok with
      | some t =>
        match tokenizeAux fuel rest with
        | some ts => some (t :: ts)
        | none => none
      | none => none

/-- Tokenize a character run. -/
def tokenize (cs : List Char) : Option (List Tok) :=
  tokenizeAux (cs.length + 1) cs

mutual
/-- Fuelled recursive-descent parsing and evaluation: an expression is a
term followed by `+`/`-` continuations (standard precedence, spec §9). -/
def parseE : Nat → List Tok → Option (Int × List Tok)
  | 0, _ => none
  | fuel + 1, ts =>
    match parseT fuel ts with
    | some (v, rest) => parseEloop fuel v rest
    | none => none

/-- `+`/`-` continuation loop of an expression. -/
def parseEloop : Nat → Int → List Tok → Option (Int × List Tok)
  | 0, _, _ => none
  | fuel + 1, acc, Tok.plus :: ts =>
    match parseT fuel ts with
    | some (v, rest) => parseEloop fuel (acc + v) rest
    | none => none
  | fuel + 1, acc, Tok.minus :: ts =>
    match parseT fuel ts with
    | some (v, rest) => parseEloop fuel (acc - v) rest
    | none => none
  | _ + 1, acc, ts => some (acc, ts)

/-- A term is a factor followed by `*`/`/` continuations. -/
def parseT : Nat → List Tok → Option (Int × List Tok)
  | 0, _ => none
  | fuel + 1, ts =>
    match parseF fuel ts with
    | some (v, rest) => parseTloop fuel v rest
    | none => none

/-- `*`/`/` continuation loop of a term; division by zero fails. -/
def parseTloop : Nat → Int → List Tok → Option (Int × List Tok)
  | 0, _, _ => none
  | fuel + 1, acc, Tok.times :: ts =>
    match parseF fuel ts with
    | some (v, rest) => parseTloop fuel (acc * v) rest
    | none => none
  | fuel + 1, acc, Tok.div :: ts =>
    match parseF fuel ts with
    | some (v, rest) =>
      if v == 0 then none else parseTloop fuel (acc / v) rest
    | none => none
  | _ + 1, acc, ts => some (acc, ts)

/-- A factor is a number, a negated factor, or a parenthesised expression. -/
def parseF : Nat → List Tok → Option (Int × List Tok)
  | 0, _ => none
  | _ + 1, Tok.num n :: ts => some ((n : Int), ts)
  | fuel + 1, Tok.minus :: ts =>
    match parseF fuel ts with
    | some (v, rest) => some (-v, rest)
    | none => none
  | fuel + 1, Tok.lpar :: ts =>
    match parseE fuel ts with
    | some (v, Tok.rpar :: rest) => some (v, rest)
    | _ => none
  | _, _ => none
end

/-- Evaluate a character run as an arithmetic expression; `none` models an
evaluation failure (malformed expression or division by zero). -/
def evalExpr (cs : List Char) : Option Int :=
  match tokenize cs with
  | none => none
  | some [] => none
  | some ts =>
    match parseE ((ts.length + 1) * 4) ts with
    | some (v, []) => some v
    | _ => none

/-- Modelled from the spec (§4.3, missing router script): the calculator
tool.  Extracts the longest run of calculator characters; if none exists,
returns the fixed "no expression found" message; if evaluation fails,
returns an error-shaped message; otherwise the decimal result as text. -/
def calculator (q : String) : String :=
  let run := longestRun allowedCalcChar q.data
  if run.all Char.isWhitespace then
    "No mathematical expression found in the question."
  else
    match evalExpr run with
    | some v => String.mk (renderInt v)
    | none => "Error: could not evaluate the expression."

/-- Modelled from the spec (§4.3, missing router script): the fixed static
joke list (three short strings; the exact texts are not given by the spec). -/
def jokes : List String :=
  ["Why do programmers prefer dark mode? Because light attracts bugs.",
   "There are 10 kinds of people: those who know binary and those who do not.",
   "A SQL query walks into a bar, goes up to two tables and asks: may I join you?"]

/-- Modelled from the spec (§4.3): `random_joke` ignores its input and
returns one entry of the fixed list; the random choice is modelled by the
index parameter `idx`. -/
def random_joke (idx : Nat) (_q : String) : String :=
  jokes.getD (idx % 3) ""

/-- Number of whitespace-delimited tokens; the Boolean argument records
whether the previous character was inside a word. -/
def countWordsAux : List Char → Bool → Nat
  | [], _ => 0
  | c :: rest, inWord =>
    if c.isWhitespace then countWordsAux rest false
    else (if inWord then 0 else 1) + countWordsAux rest true

/-- Modelled from the spec (§4.3): `word_count` reports the number of
whitespace-delimited tokens in a fixed-format sentence. -/
def word_count (t : String) : String :=
  String.mk
    ("The text contains ".data ++ renderNat (countWordsAux t.data false) ++
     " words.".data)

/-- Modelled from the spec (§4.2): the fixed explanatory sentence returned
when the question mentions "ai" and no tool was selected. -/
def aiSentence : String :=
  "AI stands for Artificial Intelligence: systems that perform tasks normally requiring human intelligence."

/-- Modelled from the spec (§4.2): the fixed fallback sentence. -/
def dontUnderstandSentence : String :=
  "I do not understand the question. Try asking about math, jokes, or word counts."

/-- Modelled from the spec (§4.2, missing router script): `invoke`.  If a
tool was selected, call it and return its text (the calculator converts its
own failures to text, so no tool raises); else answer the "ai" question or
fall through to the fixed fallback sentence. -/
def invoke (idx : Nat) (q : String) : String :=
  match select_tool q with
  | some name =>
    if name == "calculator" then calculator q
    else if name == "random_joke" then random_joke idx q
    else word_count q
  | none =>
    if containsCI q "ai" then aiSentence else dontUnderstandSentence

/-- A tracing backend whose `span.update` raises. -/
def oracleUpdateFail : TraceOracle := ⟨true, false, true, true, true, true⟩

/-- A tracing backend whose `langfuse.flush()` raises. -/
def oracleFlushFail : TraceOracle := ⟨true, true, false, true, true, true⟩

/-- The `(output, metadata)` pair of the first update of the first span of
a span list (the success span's single update on a success path). -/
def firstUpdate (spans : List SpanRecord) : Payload × Payload :=
  (spans.getD 0 default).updates.getD 0 ([], [])

/-!
## Helper lemmas
-/

theorem string_take_length_le (s : String) (n : Nat) :
    (s.take n).length ≤ n := by
  rw [String.take_eq, String.length_mk]
  exact List.length_take_le n s.1

theorem renderNatCore_ne_nil (fuel n : Nat) :
    renderNatCore (fuel + 1) n ≠ [] := by
  unfold renderNatCore
  split <;> simp

theorem renderNat_ne_nil (n : Nat) : renderNat n ≠ [] :=
  renderNatCore_ne_nil n n

theorem renderInt_ne_nil (v : Int) : renderInt v ≠ [] := by
  unfold renderInt
  split
  · simp
  · exact renderNat_ne_nil _

theorem calculator_length_pos (q : String) : 0 < (calculator q).length := by
  have h : calculator q =
      (if (longestRun allowedCalcChar q.data).all Char.isWhitespace then
        "No mathematical expression found in the question."
      else
        match evalExpr (longestRun allowedCalcChar q.data) with
        | some v => String.mk (renderInt v)
        | none => "Error: could not evaluate the expression.") := rfl
  rw [h]
  split
  · decide
  · split
    · rw [String.length_mk]
      exact List.length_pos.mpr (renderInt_ne_nil _)
    · decide

theorem random_joke_length_pos (idx : Nat) (q : String) :
    0 < (random_joke idx q).length := by
  unfold random_joke
  have h : idx % 3 = 0 ∨ idx % 3 = 1 ∨ idx % 3 = 2 := by omega
  rcases h with h | h | h <;> rw [h] <;> decide

theorem word_count_length_pos (t : String) : 0 < (word_count t).length := by
  unfold word_count
  rw [String.length_mk, List.length_append, List.length_append]
  have h1 : 0 < "The text contains ".data.length := by decide
  omega

/-!
## Claims
-/

/-- C1 counterexample: with tracing enabled and a fully functioning backend,
a failing `research_and_write` invocation produces TWO spans, not one, and
its first span is created and closed without ever being updated. -/
theorem c1_counterexample :
    ((research_and_write (α := Nat) true TraceOracle.allOk
        (Except.error "boom") (fun _ => "") "t" "article" "ts" 0 1).2).length
      ≠ 1 ∧
    ((research_and_write (α := Nat) true TraceOracle.allOk
        (Except.error "boom") (fun _ => "") "t" "article" "ts" 0 1).2.getD 0
        default).updates.length = 0 ∧
    ((research_and_write (α := Nat) true TraceOracle.allOk
        (Except.error "boom") (fun _ => "") "t" "article" "ts" 0 1).2.getD 0
        default).closed = true := by
  refine ⟨?_, rfl, rfl⟩
  decide

/-- C1 (amended): with tracing enabled and a functioning backend, a
successful invocation of `research_and_write` or `quick_research` produces
exactly one span, updated exactly once and closed; a failing invocation
produces exactly two spans: the primary span closed without any update,
followed by an error span updated exactly once and closed. -/
theorem c1_amended {α : Type} (strFn : α → String) (r : α) (m : String)
    (topic ct ts q : String) (s e : Int) :
    spansSuccessShape (research_and_write true TraceOracle.allOk
        (Except.ok r) strFn topic ct ts s e).2 = true ∧
    spansFailureShape (research_and_write true TraceOracle.allOk
        (Except.error m) strFn topic ct ts s e).2 = true ∧
    spansSuccessShape (quick_research true TraceOracle.allOk
        (Except.ok r) strFn q ts s e).2 = true ∧
    spansFailureShape (quick_research true TraceOracle.allOk
        (Except.error m) strFn q ts s e).2 = true :=
  ⟨rfl, rfl, rfl, rfl⟩

/-- C2 counterexample: when `quick_research` fails with tracing enabled and
a functioning backend, the span recorded for the failure (the second span)
carries an output with NO `status` key and metadata with NO request context
(`question` key), contradicting the claimed failure shape. -/
theorem c2_counterexample :
    Payload.hasKey
      (((quick_research (α := Nat) true TraceOracle.allOk
          (Except.error "boom") (fun _ => "") "q" "ts" 0 1).2.getD 1
          default).updates.getD 0 ([], [])).1 "status" = false ∧
    Payload.hasKey
      (((quick_research (α := Nat) true TraceOracle.allOk
          (Except.error "boom") (fun _ => "") "q" "ts" 0 1).2.getD 1
          default).updates.getD 0 ([], [])).2 "question" = false ∧
    ((quick_research (α := Nat) true TraceOracle.allOk
        (Except.error "boom") (fun _ => "") "q" "ts" 0 1).2.getD 1
        default).updates.length = 1 :=
  ⟨rfl, rfl, rfl⟩

/-- C2 (amended): when the work fails with tracing enabled and a functioning
backend, the original failure is re-raised in both functions, and the error
span's single update is: for `research_and_write` an output
`{error, status: "failed"}` with metadata `{topic, execution_time_seconds}`;
for `quick_research` an output `{error}` only (no status), with metadata
`{execution_time_seconds}` only (no question context). -/
theorem c2_amended {α : Type} (strFn : α → String) (m : String)
    (topic ct ts q : String) (s e : Int) :
    (research_and_write true TraceOracle.allOk (Except.error m) strFn
        topic ct ts s e).1 = Except.error m ∧
    ((research_and_write true TraceOracle.allOk (Except.error m) strFn
        topic ct ts s e).2.getD 1 default).updates =
      [([("error", JVal.s m), ("status", JVal.s "failed")],
        [("topic", JVal.s topic),
         ("execution_time_seconds", JVal.i (e - s))])] ∧
    (quick_research true TraceOracle.allOk (Except.error m) strFn
        q ts s e).1 = Except.error m ∧
    ((quick_research true TraceOracle.allOk (Except.error m) strFn
        q ts s e).2.getD 1 default).updates =
      [([("error", JVal.s m)],
        [("execution_time_seconds", JVal.i (e - s))])] :=
  ⟨rfl, rfl, rfl, rfl⟩

/-- C3 counterexample: with tracing enabled, a backend failure in
`span.update` on the success path is NOT discarded: the caller observes a
tracing exception instead of the successfully computed result, whereas the
same invocation with tracing disabled returns the result. -/
theorem c3_counterexample :
    (research_and_write (α := Nat) true oracleUpdateFail (Except.ok 7)
        (fun n => toString n) "t" "a" "ts" 0 1).1 =
      Except.error "TracingBackendError" ∧
    (research_and_write (α := Nat) false oracleUpdateFail (Except.ok 7)
        (fun n => toString n) "t" "a" "ts" 0 1).1 = Except.ok 7 :=
  ⟨rfl, rfl⟩

/-- C3 (amended): on the failure path, tracing backend failures are caught
and discarded (the original work failure is re-raised provided the primary
span was created); but on the success path a tracing backend failure in span
creation, `span.update`, or flush is NOT discarded: the invocation raises
the tracing failure to the caller instead of returning the result, and when
span creation fails the work never even runs. -/
theorem c3_amended {α : Type} (o : TraceOracle) (strFn : α → String)
    (r : α) (m : String) (topic ct ts q : String) (s e : Int) :
    (research_and_write true o (Except.error m) strFn topic ct ts s e).1 =
      Except.error (if o.beginOk then m else tracingErrorMsg) ∧
    (research_and_write true o (Except.ok r) strFn topic ct ts s e).1 =
      (if o.beginOk && o.updateOk && o.flushOk then Except.ok r
       else Except.error tracingErrorMsg) ∧
    (quick_research true o (Except.error m) strFn q ts s e).1 =
      Except.error (if o.beginOk then m else tracingErrorMsg) ∧
    (quick_research true o (Except.ok r) strFn q ts s e).1 =
      (if o.beginOk && o.updateOk && o.flushOk then Except.ok r
       else Except.error tracingErrorMsg) := by
  obtain ⟨b, u, f, eb, eu, ef⟩ := o
  cases b <;> cases u <;> cases f <;> exact ⟨rfl, rfl, rfl, rfl⟩

/-- C4: when the work fails with tracing enabled (the primary span having
been created), the original work failure is the one raised to the caller,
whatever the tracing backend does in the failure-logging block: failures of
the error span's creation, update, or flush are swallowed silently. -/
theorem c4_secondary_tracing_failure_swallowed {α : Type}
    (u f eb eu ef : Bool) (strFn : α → String) (m : String)
    (topic ct ts q : String) (s e : Int) :
    (research_and_write true ⟨true, u, f, eb, eu, ef⟩ (Except.error m)
        strFn topic ct ts s e).1 = Except.error m ∧
    (quick_research true ⟨true, u, f, eb, eu, ef⟩ (Except.error m)
        strFn q ts s e).1 = Except.error m :=
  ⟨rfl, rfl⟩

/-- C5 counterexample: tracing is not a pure side channel: with the same
(successful) work outcome, `quick_research` with tracing enabled but a
failing flush raises a tracing error, while with tracing disabled it
returns the result. -/
theorem c5_counterexample :
    (quick_research (α := Nat) true oracleFlushFail (Except.ok 7)
        (fun n => toString n) "q" "ts" 0 1).1 =
      Except.error "TracingBackendError" ∧
    (quick_research (α := Nat) false oracleFlushFail (Except.ok 7)
        (fun n => toString n) "q" "ts" 0 1).1 = Except.ok 7 :=
  ⟨rfl, rfl⟩

/-- C5 (amended): provided the tracing backend operations all succeed,
invoking either function with tracing enabled yields exactly the same
primary outcome (result or original failure) as invoking it with tracing
disabled, for the same work outcome. -/
theorem c5_amended {α : Type} (o : TraceOracle) (work : Except String α)
    (strFn : α → String) (topic ct ts q : String) (s e : Int) :
    (research_and_write true TraceOracle.allOk work strFn
        topic ct ts s e).1 =
      (research_and_write false o work strFn topic ct ts s e).1 ∧
    (quick_research true TraceOracle.allOk work strFn q ts s e).1 =
      (quick_research false o work strFn q ts s e).1 := by
  cases work <;> exact ⟨rfl, rfl⟩

/-- C6: for every successful traced invocation (functioning backend), the
span's output contains the result text truncated to at most 800 characters
(`content` for `research_and_write`, `answer` for `quick_research`) together
with the full untruncated length, the metadata contains the elapsed
duration, and the function returns the work's original result object
unchanged, not the truncated string. -/
theorem c6_success_output {α : Type} (strFn : α → String) (r : α)
    (topic ct ts q : String) (s e : Int) :
    (research_and_write true TraceOracle.allOk (Except.ok r)
        strFn topic ct ts s e).1 = Except.ok r ∧
    Payload.get (firstUpdate (research_and_write true TraceOracle.allOk
        (Except.ok r) strFn topic ct ts s e).2).1 "content" =
      some (JVal.s ((strFn r).take 800)) ∧
    Payload.get (firstUpdate (research_and_write true TraceOracle.allOk
        (Except.ok r) strFn topic ct ts s e).2).1 "length" =
      some (JVal.n (strFn r).length) ∧
    Payload.get (firstUpdate (research_and_write true TraceOracle.allOk
        (Except.ok r) strFn topic ct ts s e).2).2 "execution_time_seconds" =
      some (JVal.i (e - s)) ∧
    (quick_research true TraceOracle.allOk (Except.ok r)
        strFn q ts s e).1 = Except.ok r ∧
    Payload.get (firstUpdate (quick_research true TraceOracle.allOk
        (Except.ok r) strFn q ts s e).2).1 "answer" =
      some (JVal.s ((strFn r).take 800)) ∧
    Payload.get (firstUpdate (quick_research true TraceOracle.allOk
        (Except.ok r) strFn q ts s e).2).1 "length" =
      some (JVal.n (strFn r).length) ∧
    Payload.get (firstUpdate (quick_research true TraceOracle.allOk
        (Except.ok r) strFn q ts s e).2).2 "execution_time_seconds" =
      some (JVal.i (e - s)) ∧
    ((strFn r).take 800).length ≤ 800 :=
  ⟨rfl, rfl, rfl, rfl, rfl, rfl, rfl, rfl, string_take_length_le _ _⟩

/-- C7: for every successful traced invocation (functioning backend),
exactly one span is created and updated exactly once; the recorded output
is success-shaped (`status` is `"success"` for `research_and_write` and
absent for `quick_research`); and, when the end timestamp is not earlier
than the start timestamp, the recorded `execution_time_seconds` is the
elapsed duration and is nonnegative. -/
theorem c7_success_span {α : Type} (strFn : α → String) (r : α)
    (topic ct ts q : String) (s e : Int) (h : s ≤ e) :
    spansSuccessShape (research_and_write true TraceOracle.allOk
        (Except.ok r) strFn topic ct ts s e).2 = true ∧
    spanStatusVal (research_and_write true TraceOracle.allOk
        (Except.ok r) strFn topic ct ts s e).2 = some (JVal.s "success") ∧
    spanDurationVal (research_and_write true TraceOracle.allOk
        (Except.ok r) strFn topic ct ts s e).2 = some (JVal.i (e - s)) ∧
    spansSuccessShape (quick_research true TraceOracle.allOk
        (Except.ok r) strFn q ts s e).2 = true ∧
    spanStatusVal (quick_research true TraceOracle.allOk
        (Except.ok r) strFn q ts s e).2 = none ∧
    spanDurationVal (quick_research true TraceOracle.allOk
        (Except.ok r) strFn q ts s e).2 = some (JVal.i (e - s)) ∧
    0 ≤ e - s :=
  ⟨rfl, rfl, rfl, rfl, rfl, rfl, by omega⟩

/-- Witness for C7 at a concrete input. -/
theorem c7_success_span_witness :
    (0 : Int) ≤ 1 ∧
    (spansSuccessShape (research_and_write (α := Nat) true TraceOracle.allOk
        (Except.ok 7) (fun n => toString n) "t" "a" "ts" 0 1).2 = true ∧
     spanStatusVal (research_and_write (α := Nat) true TraceOracle.allOk
        (Except.ok 7) (fun n => toString n) "t" "a" "ts" 0 1).2 =
       some (JVal.s "success") ∧
     spanDurationVal (research_and_write (α := Nat) true TraceOracle.allOk
        (Except.ok 7) (fun n => toString n) "t" "a" "ts" 0 1).2 =
       some (JVal.i (1 - 0)) ∧
     spansSuccessShape (quick_research (α := Nat) true TraceOracle.allOk
        (Except.ok 7) (fun n => toString n) "q" "ts" 0 1).2 = true ∧
     spanStatusVal (quick_research (α := Nat) true TraceOracle.allOk
        (Except.ok 7) (fun n => toString n) "q" "ts" 0 1).2 = none ∧
     spanDurationVal (quick_research (α := Nat) true TraceOracle.allOk
        (Except.ok 7) (fun n => toString n) "q" "ts" 0 1).2 =
       some (JVal.i (1 - 0)) ∧
     0 ≤ (1 : Int) - 0) :=
  ⟨by decide,
   c7_success_span (fun n => toString n) 7 "t" "a" "ts" "q" 0 1 (by decide)⟩

/-- C8: `select_tool` returns `calculator` for every question containing at
least one character among `+ - * / ( )` or at least one digit — the
calculator rule has first priority, so this holds even when the question
also contains "joke" or "word count" / "how many words". -/
theorem c8_calculator_priority (q : String)
    (h : ∃ c ∈ q.data, isArithChar c = true ∨ c.isDigit = true) :
    select_tool q = some "calculator" := by
  have hb : hasArithOrDigit q = true := by
    rcases h with ⟨c, hc, hor⟩
    unfold hasArithOrDigit
    rw [List.any_eq_true]
    exact ⟨c, hc, by rcases hor with h1 | h1 <;> simp [h1]⟩
  simp [select_tool, hb]

/-- Witness for C8 at a question that also contains "joke" and
"word count". -/
theorem c8_calculator_priority_witness :
    (∃ c ∈ ("tell me a joke about the word count of 7".data),
      isArithChar c = true ∨ c.isDigit = true) ∧
    select_tool "tell me a joke about the word count of 7" =
      some "calculator" :=
  ⟨by decide, c8_calculator_priority _ (by decide)⟩

/-- C9: for every question (including the empty string) and every joke
choice, the router's `invoke` returns a non-empty text result — the tool
branch, the "ai" branch, and the fallback branch are all total — and the
empty question falls through to the fixed fallback sentence. -/
theorem c9_invoke_total (idx : Nat) (q : String) :
    0 < (invoke idx q).length ∧ invoke idx "" = dontUnderstandSentence := by
  refine ⟨?_, rfl⟩
  unfold invoke
  cases select_tool q with
  | none =>
    show 0 < (if containsCI q "ai" then aiSentence
              else dontUnderstandSentence).length
    split <;> decide
  | some name =>
    show 0 < (if name == "calculator" then calculator q
              else if name == "random_joke" then random_joke idx q
              else word_count q).length
    split
    · exact calculator_length_pos q
    · split
      · exact random_joke_length_pos idx q
      · exact word_count_length_pos q

/-- C10: the success-path span payloads of the two pipeline operations
differ in shape: `research_and_write` records its output under `content`
with a `status: "success"` field, while `quick_research` records its output
under `answer` with no `status` field at all. -/
theorem c10_success_shapes_differ {α : Type} (strFn : α → String) (r : α)
    (topic ct ts q : String) (s e : Int) :
    Payload.hasKey (firstUpdate (research_and_write true TraceOracle.allOk
        (Except.ok r) strFn topic ct ts s e).2).1 "content" = true ∧
    Payload.get (firstUpdate (research_and_write true TraceOracle.allOk
        (Except.ok r) strFn topic ct ts s e).2).1 "status" =
      some (JVal.s "success") ∧
    Payload.hasKey (firstUpdate (research_and_write true TraceOracle.allOk
        (Except.ok r) strFn topic ct ts s e).2).1 "answer" = false ∧
    Payload.hasKey (firstUpdate (quick_research true TraceOracle.allOk
        (Except.ok r) strFn q ts s e).2).1 "answer" = true ∧
    Payload.hasKey (firstUpdate (quick_research true TraceOracle.allOk
        (Except.ok r) strFn q ts s e).2).1 "status" = false ∧
    Payload.hasKey (firstUpdate (quick_research true TraceOracle.allOk
        (Except.ok r) strFn q ts s e).2).1 "content" = false :=
  ⟨rfl, rfl, rfl, rfl, rfl, rfl⟩
